import Mathlib

/-!
Shallow embedding of `src/video_summary.py` (class `VideoProcessor`):
the pipeline `process_video` (optional conversion to mp4, transcription,
summarization, and cleanup of temporary files in a `finally` block),
together with the helper steps `convert_to_mp4`, `transcribe_video` and
`summarize_text`.

The filesystem is a list of existing file paths.  The external
collaborators (moviepy, AssemblyAI, OpenAI, and the temp-file name chosen
by `tempfile.NamedTemporaryFile`) are modelled as oracles packaged in an
`Env`.  Python exceptions are modelled by `PyExc`, recording the exception
class named at the `raise` site and the message; the source raises only
the generic `Exception` class, and `os.unlink` raises `FileNotFoundError`
when the path does not exist.
-/

namespace VideoSummary

/-- A Python exception value: the class named at the raise site plus its
message.  `video_summary.py` raises only `Exception(...)`;
`os.unlink` on a missing path raises `FileNotFoundError`. -/
inductive PyExc where
  | exception (msg : String)
  | fileNotFoundError (msg : String)
deriving Repr, DecidableEq

/-- `str(e)` of an exception: its message. -/
def PyExc.message : PyExc → String
  | .exception m => m
  | .fileNotFoundError m => m

/-- The Python class name of the exception value (`type(e).__name__`). -/
def PyExc.className : PyExc → String
  | .exception _ => "Exception"
  | .fileNotFoundError _ => "FileNotFoundError"

/-- The filesystem: the set of paths that currently exist, as a list. -/
abbrev FS := List String

/-- `os.path.exists`. -/
def pathExists (fs : FS) (p : String) : Bool := decide (p ∈ fs)

/-- `os.unlink`: removes the path; raises `FileNotFoundError` when it is
absent. -/
def unlink (fs : FS) (p : String) : Except PyExc FS :=
  if pathExists fs p then Except.ok (fs.filter (fun q => decide (q ≠ p)))
  else Except.error (PyExc.fileNotFoundError p)

/-- Index of the last occurrence of `c` in `cs`, or `-1` (Python
`str.rfind`). -/
def rfindChar (cs : List Char) (c : Char) : Int :=
  cs.enum.foldl (fun acc ic => if ic.2 = c then (ic.1 : Int) else acc) (-1)

/-- `os.path.splitext` (posixpath): splits off the extension at the last
dot of the basename, except that leading dots of the basename never start
an extension. -/
def splitext (p : String) : String × String :=
  let cs := p.data
  let sepIndex := rfindChar cs '/'
  let dotIndex := rfindChar cs '.'
  if sepIndex < dotIndex then
    let filenameStart := (sepIndex + 1).toNat
    let name := (cs.drop filenameStart).take (dotIndex.toNat - filenameStart)
    if name.any (fun ch => decide (ch ≠ '.')) then
      (String.mk (cs.take dotIndex.toNat), String.mk (cs.drop dotIndex.toNat))
    else (p, "")
  else (p, "")

/-- Python `str.lower`, on the ASCII letters that matter for the `.mp4`
comparison. -/
def lowerStr (s : String) : String := String.mk (s.data.map Char.toLower)

/-- `os.path.splitext(video_path)[1].lower()` — the lowercased extension,
exactly as computed at line 62 of the source. -/
def extOf (p : String) : String := lowerStr (splitext p).2

/-- The external collaborators of one run, as oracles:
`tempName` is the fresh name `tempfile.NamedTemporaryFile` picks,
`convert` is moviepy's load-and-write (`VideoFileClip` +
`write_videofile`), `transcribe` is `aai.Transcriber().transcribe`
followed by `.text` (which may be `None`), and `summarize` is the OpenAI
chat-completion call, given the text and `max_tokens`.  An `Except.error`
value is the `str(e)` of the exception the external call raised. -/
structure Env where
  tempName : String
  convert : String → Except String Unit
  transcribe : String → Except String (Option String)
  summarize : Option String → Nat → Except String String

/-- Ghost trace of one run: the arguments of each call made to
`convert_to_mp4`, to the transcriber, and to `summarize_text`. -/
structure Trace where
  convertCalls : List String
  transcribeCalls : List String
  summarizeCalls : List (Option String)
deriving Repr, DecidableEq

/-- The dict `{"transcript": ..., "summary": ...}` returned by
`process_video`; `transcript` is `transcript.text`, which Python allows
to be `None`. -/
structure ProcResult where
  transcript : Option String
  summary : String
deriving Repr, DecidableEq

/-- `VideoProcessor.convert_to_mp4` (lines 16–32): creates the temporary
mp4 file on disk (`NamedTemporaryFile(delete=False)`), then runs the
external conversion; on success returns the temp file's name, on failure
re-raises `Exception("Error converting video: " + str(e))`.  Either way
the temp file now exists on disk. -/
def convert_to_mp4 (env : Env) (fs : FS) (input_path : String) :
    FS × Except PyExc String :=
  let fs1 := env.tempName :: fs
  match env.convert input_path with
  | Except.ok _ => (fs1, Except.ok env.tempName)
  | Except.error e =>
      (fs1, Except.error (PyExc.exception ("Error converting video: " ++ e)))

/-- `VideoProcessor.transcribe_video` (lines 34–40): calls the external
transcriber and returns `transcript.text`; on an exception from the
service re-raises `Exception("Error transcribing video: " + str(e))`. -/
def transcribe_video (env : Env) (video_path : String) :
    Except PyExc (Option String) :=
  match env.transcribe video_path with
  | Except.ok t => Except.ok t
  | Except.error e =>
      Except.error (PyExc.exception ("Error transcribing video: " ++ e))

/-- `VideoProcessor.summarize_text` (lines 42–55): calls the external
completion service; on an exception re-raises
`Exception("Error summarizing text: " + str(e))`. -/
def summarize_text (env : Env) (text : Option String) (max_tokens : Nat := 150) :
    Except PyExc String :=
  match env.summarize text max_tokens with
  | Except.ok s => Except.ok s
  | Except.error e =>
      Except.error (PyExc.exception ("Error summarizing text: " ++ e))

/-- The cleanup loop of the `finally` block (lines 82–86):
`for temp_file in temp_files: if os.path.exists(temp_file):
os.unlink(temp_file)`.  Returns the filesystem and the exception, if any,
that escaped the loop. -/
def cleanup (fs : FS) (temp_files : List String) : FS × Option PyExc :=
  match temp_files with
  | [] => (fs, none)
  | t :: rest =>
    if pathExists fs t then
      match unlink fs t with
      | Except.ok fs1 => cleanup fs1 rest
      | Except.error e => (fs, some e)
    else cleanup fs rest

/-- Transcribe-then-summarize tail of `process_video` (lines 70–81),
shared by the converted and the already-mp4 branch: `mp4_path` is the
path handed to the transcriber. -/
def pipelineRest (env : Env) (fs : FS) (temp_files : List String)
    (tr : Trace) (mp4_path : String) :
    FS × List String × Trace × Except PyExc ProcResult :=
  let tr1 : Trace := { tr with transcribeCalls := tr.transcribeCalls ++ [mp4_path] }
  match transcribe_video env mp4_path with
  | Except.error e => (fs, temp_files, tr1, Except.error e)
  | Except.ok transcript =>
    let tr2 : Trace := { tr1 with summarizeCalls := tr1.summarizeCalls ++ [transcript] }
    match summarize_text env transcript with
    | Except.error e => (fs, temp_files, tr2, Except.error e)
    | Except.ok summary =>
        (fs, temp_files, tr2, Except.ok { transcript := transcript, summary := summary })

/-- The `try` body of `process_video` (lines 59–81): extension check,
optional conversion (appending the returned path to `temp_files`),
transcription, summarization.  Returns the filesystem, the `temp_files`
list, the call trace and the outcome at the moment the `finally` block is
entered. -/
def processBody (env : Env) (fs : FS) (video_path : String) :
    FS × List String × Trace × Except PyExc ProcResult :=
  if extOf video_path ≠ ".mp4" then
    match convert_to_mp4 env fs video_path with
    | (fs1, Except.ok mp4_path) =>
        pipelineRest env fs1 [mp4_path]
          { convertCalls := [video_path], transcribeCalls := [], summarizeCalls := [] }
          mp4_path
    | (fs1, Except.error e) =>
        (fs1, [],
         { convertCalls := [video_path], transcribeCalls := [], summarizeCalls := [] },
         Except.error e)
  else
    pipelineRest env fs []
      { convertCalls := [], transcribeCalls := [], summarizeCalls := [] }
      video_path

/-- `VideoProcessor.process_video` (lines 57–86): runs the body, then the
`finally` cleanup; an exception escaping the `finally` block would replace
the body's outcome, as in Python. -/
def process_video (env : Env) (fs : FS) (video_path : String) :
    FS × Trace × Except PyExc ProcResult :=
  match processBody env fs video_path with
  | (fsB, temp_files, tr, outcome) =>
    let c := cleanup fsB temp_files
    match c.2 with
    | some e => (c.1, tr, Except.error e)
    | none => (c.1, tr, outcome)

/-! ## Concrete environments used as witnesses and counterexamples -/

/-- All external calls succeed: conversion works, the transcriber returns
"hello world", the summarizer returns "greeting". -/
def envOk : Env where
  tempName := "t1.mp4"
  convert := fun _ => Except.ok ()
  transcribe := fun _ => Except.ok (some "hello world")
  summarize := fun _ _ => Except.ok "greeting"

/-- moviepy fails while converting; the downstream services would
succeed. -/
def envConvFail : Env where
  tempName := "tmp1.mp4"
  convert := fun _ => Except.error "codec failure"
  transcribe := fun _ => Except.ok (some "hello world")
  summarize := fun _ _ => Except.ok "greeting"

/-- The speech-recognition service raises an exception. -/
def envTransFail : Env where
  tempName := "t2.mp4"
  convert := fun _ => Except.ok ()
  transcribe := fun _ => Except.error "network down"
  summarize := fun _ _ => Except.ok "greeting"

/-- The completion service raises an exception. -/
def envSumFail : Env where
  tempName := "t3.mp4"
  convert := fun _ => Except.ok ()
  transcribe := fun _ => Except.ok (some "hello world")
  summarize := fun _ _ => Except.error "quota exceeded"

/-- The speech-recognition service succeeds but the transcript object's
text is absent (`transcript.text` is `None`). -/
def envEmptyText : Env where
  tempName := "t4.mp4"
  convert := fun _ => Except.ok ()
  transcribe := fun _ => Except.ok none
  summarize := fun _ _ => Except.ok "greeting"

/-- Every external call fails, with a distinct message per step. -/
def envAllFail : Env where
  tempName := "t5.mp4"
  convert := fun _ => Except.error "c"
  transcribe := fun _ => Except.error "t"
  summarize := fun _ _ => Except.error "s"

/-! ## Basic lemmas about the filesystem operations -/

lemma pathExists_iff {fs : FS} {p : String} : pathExists fs p = true ↔ p ∈ fs := by
  simp [pathExists]

lemma cleanup_cons_mem (fs : FS) (t : String) (rest : List String) (h : t ∈ fs) :
    cleanup fs (t :: rest) = cleanup (fs.filter (fun q => decide (q ≠ t))) rest := by
  simp [cleanup, unlink, pathExists, h]

lemma cleanup_cons_not_mem (fs : FS) (t : String) (rest : List String) (h : t ∉ fs) :
    cleanup fs (t :: rest) = cleanup fs rest := by
  simp [cleanup, pathExists, h]

lemma cleanup_snd (fs : FS) (ts : List String) : (cleanup fs ts).2 = none := by
  induction ts generalizing fs with
  | nil => rfl
  | cons t rest ih =>
    by_cases h : t ∈ fs
    · rw [cleanup_cons_mem fs t rest h]; exact ih _
    · rw [cleanup_cons_not_mem fs t rest h]; exact ih _

lemma cleanup_mem (fs : FS) (ts : List String) (p : String) :
    p ∈ (cleanup fs ts).1 ↔ (p ∈ fs ∧ p ∉ ts) := by
  induction ts generalizing fs with
  | nil => simp [cleanup]
  | cons t rest ih =>
    by_cases h : t ∈ fs
    · rw [cleanup_cons_mem fs t rest h, ih]
      simp only [List.mem_filter, List.mem_cons, decide_eq_true_eq]
      tauto
    · rw [cleanup_cons_not_mem fs t rest h, ih]
      simp only [List.mem_cons]
      constructor
      · rintro ⟨hpf, hnr⟩
        refine ⟨hpf, ?_⟩
        rintro (rfl | hr)
        · exact h hpf
        · exact hnr hr
      · rintro ⟨hpf, hn⟩
        exact ⟨hpf, fun hr => hn (Or.inr hr)⟩

lemma cleanup_fresh (fs : FS) (t : String) (h : t ∉ fs) :
    cleanup (t :: fs) [t] = (fs, none) := by
  rw [cleanup_cons_mem (t :: fs) t [] (List.mem_cons_self t fs)]
  have hf : (t :: fs).filter (fun q => decide (q ≠ t)) = fs := by
    simp only [List.filter_cons]
    have h1 : (decide (t ≠ t)) = false := by simp
    rw [h1]
    simp only [Bool.false_eq_true, if_false]
    exact List.filter_eq_self.2 (fun a ha => decide_eq_true (fun e : a = t => h (e ▸ ha)))
  rw [hf]
  rfl

/-! ## Characterization of the pipeline steps -/

lemma pipelineRest_fs_tf (env : Env) (fs : FS) (tf : List String) (tr : Trace) (q : String) :
    (pipelineRest env fs tf tr q).1 = fs ∧ (pipelineRest env fs tf tr q).2.1 = tf := by
  cases h : env.transcribe q with
  | error e => simp [pipelineRest, transcribe_video, h]
  | ok t =>
    cases h2 : env.summarize t 150 with
    | error e => simp [pipelineRest, transcribe_video, summarize_text, h, h2]
    | ok s => simp [pipelineRest, transcribe_video, summarize_text, h, h2]

lemma pipelineRest_transcribe_err (env : Env) (fs : FS) (tf : List String) (tr : Trace)
    (q : String) (e : String) (h : env.transcribe q = Except.error e) :
    pipelineRest env fs tf tr q
      = (fs, tf, { tr with transcribeCalls := tr.transcribeCalls ++ [q] },
         Except.error (PyExc.exception ("Error transcribing video: " ++ e))) := by
  simp [pipelineRest, transcribe_video, h]

lemma pipelineRest_summarize_err (env : Env) (fs : FS) (tf : List String) (tr : Trace)
    (q : String) (t : Option String) (e : String)
    (h1 : env.transcribe q = Except.ok t) (h2 : env.summarize t 150 = Except.error e) :
    pipelineRest env fs tf tr q
      = (fs, tf,
         { tr with transcribeCalls := tr.transcribeCalls ++ [q], summarizeCalls := tr.summarizeCalls ++ [t] },
         Except.error (PyExc.exception ("Error summarizing text: " ++ e))) := by
  simp [pipelineRest, transcribe_video, summarize_text, h1, h2]

lemma pipelineRest_ok (env : Env) (fs : FS) (tf : List String) (tr : Trace)
    (q : String) (t : Option String) (s : String)
    (h1 : env.transcribe q = Except.ok t) (h2 : env.summarize t 150 = Except.ok s) :
    pipelineRest env fs tf tr q
      = (fs, tf,
         { tr with transcribeCalls := tr.transcribeCalls ++ [q], summarizeCalls := tr.summarizeCalls ++ [t] },
         Except.ok { transcript := t, summary := s }) := by
  simp [pipelineRest, transcribe_video, summarize_text, h1, h2]

lemma processBody_mp4 (env : Env) (fs : FS) (p : String) (h : extOf p = ".mp4") :
    processBody env fs p
      = pipelineRest env fs []
          { convertCalls := [], transcribeCalls := [], summarizeCalls := [] } p := by
  simp [processBody, h]

lemma processBody_conv_ok (env : Env) (fs : FS) (p : String)
    (h1 : extOf p ≠ ".mp4") (h2 : env.convert p = Except.ok ()) :
    processBody env fs p
      = pipelineRest env (env.tempName :: fs) [env.tempName]
          { convertCalls := [p], transcribeCalls := [], summarizeCalls := [] }
          env.tempName := by
  simp [processBody, convert_to_mp4, h1, h2]

lemma processBody_conv_err (env : Env) (fs : FS) (p : String) (e : String)
    (h1 : extOf p ≠ ".mp4") (h2 : env.convert p = Except.error e) :
    processBody env fs p
      = (env.tempName :: fs, [],
         { convertCalls := [p], transcribeCalls := [], summarizeCalls := [] },
         Except.error (PyExc.exception ("Error converting video: " ++ e))) := by
  simp [processBody, convert_to_mp4, h1, h2]

lemma process_video_eq (env : Env) (fs : FS) (p : String) :
    process_video env fs p
      = ((cleanup (processBody env fs p).1 (processBody env fs p).2.1).1,
         (processBody env fs p).2.2.1,
         (processBody env fs p).2.2.2) := by
  unfold process_video
  rcases hB : processBody env fs p with ⟨fsB, tf, tr, outcome⟩
  simp [hB, cleanup_snd]

/-! ## Claim theorems -/

/-- C1 (counterexample): the claim that every run of `process_video`
leaves the set of temporary files unchanged is false.  In a run on
`movie.avi` where the conversion step fails, the temporary mp4 file
`tmp1.mp4` created by `NamedTemporaryFile` inside `convert_to_mp4` was
never appended to `temp_files` (the append at line 66 is only reached
when `convert_to_mp4` returns), so it is still on disk after
`process_video` returns, although it was not there before the call. -/
theorem C1_counterexample :
    "tmp1.mp4" ∈ (process_video envConvFail ["movie.avi"] "movie.avi").1
    ∧ "tmp1.mp4" ∉ (["movie.avi"] : FS) := by
  decide

/-- C1 (amended): for every run of `process_video` in which the
conversion step does not fail — the input already has extension `.mp4`,
or `convert_to_mp4` succeeds — the filesystem after the call equals the
filesystem before it; when the conversion step fails, exactly the
freshly created temporary mp4 file has leaked. -/
theorem C1_temp_files_restored_unless_conversion_fails
    (env : Env) (fs : FS) (p : String) (hfresh : env.tempName ∉ fs) :
    ((extOf p = ".mp4" ∨ env.convert p = Except.ok ()) →
       (process_video env fs p).1 = fs)
    ∧ (∀ e, extOf p ≠ ".mp4" → env.convert p = Except.error e →
       (process_video env fs p).1 = env.tempName :: fs) := by
  constructor
  · intro h
    by_cases hx : extOf p = ".mp4"
    · rw [process_video_eq, processBody_mp4 env fs p hx,
        (pipelineRest_fs_tf env fs [] _ p).1, (pipelineRest_fs_tf env fs [] _ p).2]
      rfl
    · rcases h with h | hok
      · exact absurd h hx
      · rw [process_video_eq, processBody_conv_ok env fs p hx hok,
          (pipelineRest_fs_tf env _ _ _ _).1, (pipelineRest_fs_tf env _ _ _ _).2,
          cleanup_fresh fs env.tempName hfresh]
  · intro e hx he
    rw [process_video_eq, processBody_conv_err env fs p e hx he]
    rfl

/-- C1 (witness): the amended theorem applied to a successful run on
`movie.mkv` (filesystem restored) and to a run on `movie.avi` whose
conversion fails (exactly `tmp1.mp4` leaked). -/
theorem C1_witness :
    (process_video envOk ["movie.mkv"] "movie.mkv").1 = ["movie.mkv"]
    ∧ (process_video envConvFail ["movie.avi"] "movie.avi").1
        = "tmp1.mp4" :: ["movie.avi"] := by
  constructor
  · exact (C1_temp_files_restored_unless_conversion_fails envOk ["movie.mkv"] "movie.mkv"
      (by decide)).1 (Or.inr rfl)
  · exact (C1_temp_files_restored_unless_conversion_fails envConvFail ["movie.avi"] "movie.avi"
      (by decide)).2 "codec failure" (by decide) rfl

/-- C2 (confirmed): on an input whose lowercased extension is `.mp4`,
when the transcriber returns text `t` and the summarizer returns `s`,
`process_video` returns `{transcript := t, summary := s}`, the
filesystem is unchanged (no temporary file is ever created on this
path), and the conversion step is never invoked. -/
theorem C2_mp4_happy_path (env : Env) (fs : FS) (p : String) (t s : String)
    (h1 : extOf p = ".mp4") (h2 : env.transcribe p = Except.ok (some t))
    (h3 : env.summarize (some t) 150 = Except.ok s) :
    process_video env fs p
      = (fs,
         { convertCalls := [], transcribeCalls := [p], summarizeCalls := [some t] },
         Except.ok { transcript := some t, summary := s }) := by
  rw [process_video_eq, processBody_mp4 env fs p h1,
    pipelineRest_ok env fs [] _ p (some t) s h2 h3]
  rfl

/-- C2 (witness): the end-to-end scenario of the spec — input
`sample.mp4`, transcriber returns "hello world", summarizer returns
"greeting". -/
theorem C2_witness :
    process_video envOk ["sample.mp4"] "sample.mp4"
      = (["sample.mp4"],
         { convertCalls := [], transcribeCalls := ["sample.mp4"],
           summarizeCalls := [some "hello world"] },
         Except.ok { transcript := some "hello world", summary := "greeting" }) :=
  C2_mp4_happy_path envOk ["sample.mp4"] "sample.mp4" "hello world" "greeting"
    (by decide) rfl rfl

/-- C3 (confirmed): whenever the input's extension, lowercased as at line
62, equals `.mp4`, `convert_to_mp4` is never called and the original
input path is the one (and only) path handed to the transcriber — for
every behavior of the external services. -/
theorem C3_mp4_skips_normalizer (env : Env) (fs : FS) (p : String)
    (h : extOf p = ".mp4") :
    (process_video env fs p).2.1.convertCalls = []
    ∧ (process_video env fs p).2.1.transcribeCalls = [p] := by
  rw [process_video_eq, processBody_mp4 env fs p h]
  cases htr : env.transcribe p with
  | error e =>
    rw [pipelineRest_transcribe_err env fs [] _ p e htr]
    exact ⟨rfl, rfl⟩
  | ok t =>
    cases hs : env.summarize t 150 with
    | error e =>
      rw [pipelineRest_summarize_err env fs [] _ p t e htr hs]
      exact ⟨rfl, rfl⟩
    | ok s =>
      rw [pipelineRest_ok env fs [] _ p t s htr hs]
      exact ⟨rfl, rfl⟩

/-- C3 (witness): the comparison is case-insensitive — on `A.MP4` the
normalizer is skipped and `A.MP4` itself is passed to the
transcriber. -/
theorem C3_witness :
    (process_video envOk [] "A.MP4").2.1.convertCalls = []
    ∧ (process_video envOk [] "A.MP4").2.1.transcribeCalls = ["A.MP4"] :=
  C3_mp4_skips_normalizer envOk [] "A.MP4" (by decide)

/-- C4 (counterexample): the claim that for every non-mp4 input the one
normalized temporary file is deleted by the time `process_video` returns
is false: when the conversion itself fails, the temporary file
(`tmp1.mp4`, created before the failure) is still on disk after the
call. -/
theorem C4_counterexample :
    "tmp1.mp4" ∈ (process_video envConvFail ["clip.avi"] "clip.avi").1
    ∧ "tmp1.mp4" ∉ (["clip.avi"] : FS) := by
  decide

/-- C4 (amended): for every input whose lowercased extension differs
from `.mp4`, exactly one temporary file — the fresh name picked by
`NamedTemporaryFile` — is created during the run; it is deleted by the
time `process_video` returns when the conversion succeeds, and it
remains on disk when the conversion fails. -/
theorem C4_one_temp_file_created
    (env : Env) (fs : FS) (p : String)
    (hfresh : env.tempName ∉ fs) (hext : extOf p ≠ ".mp4") :
    (processBody env fs p).1 = env.tempName :: fs
    ∧ (env.convert p = Except.ok () → (process_video env fs p).1 = fs)
    ∧ (∀ e, env.convert p = Except.error e →
        (process_video env fs p).1 = env.tempName :: fs) := by
  refine ⟨?_, ?_, ?_⟩
  · cases hc : env.convert p with
    | ok u =>
      cases u
      rw [processBody_conv_ok env fs p hext hc]
      exact (pipelineRest_fs_tf env _ _ _ _).1
    | error e =>
      rw [processBody_conv_err env fs p e hext hc]
  · intro hok
    rw [process_video_eq, processBody_conv_ok env fs p hext hok,
      (pipelineRest_fs_tf env _ _ _ _).1, (pipelineRest_fs_tf env _ _ _ _).2,
      cleanup_fresh fs env.tempName hfresh]
  · intro e hc
    rw [process_video_eq, processBody_conv_err env fs p e hext hc]
    rfl

/-- C4 (witness): on `movie.mkv` with a succeeding conversion, exactly
the file `t1.mp4` is created during the run and the filesystem is
restored on return. -/
theorem C4_witness :
    (processBody envOk ["movie.mkv"] "movie.mkv").1 = ["t1.mp4", "movie.mkv"]
    ∧ (process_video envOk ["movie.mkv"] "movie.mkv").1 = ["movie.mkv"] :=
  ⟨(C4_one_temp_file_created envOk ["movie.mkv"] "movie.mkv" (by decide) (by decide)).1,
   (C4_one_temp_file_created envOk ["movie.mkv"] "movie.mkv" (by decide) (by decide)).2.1 rfl⟩

/-- C5 (confirmed): in every run in which the transcription step fails —
whether the input was already mp4 or was first converted — the
summarizer is never invoked and the error propagated by `process_video`
is the `Exception` whose message starts with "Error transcribing video",
identifying the transcription stage. -/
theorem C5_transcriber_failure_skips_summarizer
    (env : Env) (fs : FS) (p : String) (e : String)
    (h : (extOf p = ".mp4" ∧ env.transcribe p = Except.error e)
       ∨ (extOf p ≠ ".mp4" ∧ env.convert p = Except.ok ()
           ∧ env.transcribe env.tempName = Except.error e)) :
    (process_video env fs p).2.1.summarizeCalls = []
    ∧ (process_video env fs p).2.2
        = Except.error (PyExc.exception ("Error transcribing video: " ++ e)) := by
  rcases h with ⟨hx, ht⟩ | ⟨hx, hc, ht⟩
  · rw [process_video_eq, processBody_mp4 env fs p hx,
      pipelineRest_transcribe_err env fs [] _ p e ht]
    exact ⟨rfl, rfl⟩
  · rw [process_video_eq, processBody_conv_ok env fs p hx hc,
      pipelineRest_transcribe_err env _ _ _ _ e ht]
    exact ⟨rfl, rfl⟩

/-- C5 (witness): with a transcriber that raises "network down" on
`sample.mp4`, no summarize call happens and the surfaced error names the
transcription stage. -/
theorem C5_witness :
    (process_video envTransFail [] "sample.mp4").2.1.summarizeCalls = []
    ∧ (process_video envTransFail [] "sample.mp4").2.2
        = Except.error (PyExc.exception "Error transcribing video: network down") :=
  C5_transcriber_failure_skips_summarizer envTransFail [] "sample.mp4" "network down"
    (Or.inl ⟨by decide, rfl⟩)

/-- C6 (confirmed): whichever step fails — conversion, transcription, or
summarization — `process_video` propagates a single `Exception` and
returns no `ProcResult`; in particular a transcript already produced is
discarded when the summarizer fails. -/
theorem C6_failure_yields_no_partial_result
    (env : Env) (fs : FS) (p : String) (e : String)
    (h : (extOf p ≠ ".mp4" ∧ env.convert p = Except.error e)
       ∨ ((extOf p = ".mp4" ∧ env.transcribe p = Except.error e)
          ∨ (extOf p ≠ ".mp4" ∧ env.convert p = Except.ok ()
              ∧ env.transcribe env.tempName = Except.error e))
       ∨ (∃ t, ((extOf p = ".mp4" ∧ env.transcribe p = Except.ok t)
              ∨ (extOf p ≠ ".mp4" ∧ env.convert p = Except.ok ()
                  ∧ env.transcribe env.tempName = Except.ok t))
            ∧ env.summarize t 150 = Except.error e)) :
    (∃ m : String, (process_video env fs p).2.2 = Except.error (PyExc.exception m))
    ∧ ∀ r : ProcResult, (process_video env fs p).2.2 ≠ Except.ok r := by
  rcases h with ⟨hx, hc⟩ | (⟨hx, ht⟩ | ⟨hx, hc, ht⟩) | ⟨t, hreach, hs⟩
  · rw [process_video_eq, processBody_conv_err env fs p e hx hc]
    exact ⟨⟨_, rfl⟩, fun r hr => Except.noConfusion hr⟩
  · rw [process_video_eq, processBody_mp4 env fs p hx,
      pipelineRest_transcribe_err env fs [] _ p e ht]
    exact ⟨⟨_, rfl⟩, fun r hr => Except.noConfusion hr⟩
  · rw [process_video_eq, processBody_conv_ok env fs p hx hc,
      pipelineRest_transcribe_err env _ _ _ _ e ht]
    exact ⟨⟨_, rfl⟩, fun r hr => Except.noConfusion hr⟩
  · rcases hreach with ⟨hx, ht⟩ | ⟨hx, hc, ht⟩
    · rw [process_video_eq, processBody_mp4 env fs p hx,
        pipelineRest_summarize_err env fs [] _ p t e ht hs]
      exact ⟨⟨_, rfl⟩, fun r hr => Except.noConfusion hr⟩
    · rw [process_video_eq, processBody_conv_ok env fs p hx hc,
        pipelineRest_summarize_err env _ _ _ _ t e ht hs]
      exact ⟨⟨_, rfl⟩, fun r hr => Except.noConfusion hr⟩

/-- C6 (witness): on `sample.mp4` with a summarizer that raises "quota
exceeded", the run yields an error and no result record — the transcript
"hello world" already produced is not returned. -/
theorem C6_witness :
    (∃ m : String, (process_video envSumFail [] "sample.mp4").2.2
        = Except.error (PyExc.exception m))
    ∧ ∀ r : ProcResult,
        (process_video envSumFail [] "sample.mp4").2.2 ≠ Except.ok r :=
  C6_failure_yields_no_partial_result envSumFail [] "sample.mp4" "quota exceeded"
    (Or.inr (Or.inr ⟨some "hello world", Or.inl ⟨by decide, rfl⟩, rfl⟩))

/-- C7 (counterexample): the claim that each step re-raises the typed
error of that step (`ConversionError` for the normalizer, etc.) is
false: on a failing conversion the code raises the generic Python
`Exception` class — `raise Exception(f"Error converting video: ...")` at
line 32 — whose class name is "Exception", not "ConversionError"; no
such typed class exists in the program. -/
theorem C7_counterexample :
    (convert_to_mp4 envConvFail [] "clip.avi").2
      = Except.error (PyExc.exception "Error converting video: codec failure")
    ∧ PyExc.className (PyExc.exception "Error converting video: codec failure")
        = "Exception"
    ∧ "Exception" ≠ "ConversionError" :=
  ⟨rfl, rfl, by decide⟩

/-- C7 (amended): every internal failure of a step is caught at its
origin and re-raised as the generic `Exception` class (never a
step-specific exception class) carrying a human-readable message that
names the originating step: "Error converting video: ...",
"Error transcribing video: ...", "Error summarizing text: ...". -/
theorem C7_generic_exception_named_per_step
    (env : Env) (fs : FS) (p : String) (text : Option String) (n : Nat) (e : String) :
    (env.convert p = Except.error e →
      (convert_to_mp4 env fs p).2
        = Except.error (PyExc.exception ("Error converting video: " ++ e)))
    ∧ (env.transcribe p = Except.error e →
      transcribe_video env p
        = Except.error (PyExc.exception ("Error transcribing video: " ++ e)))
    ∧ (env.summarize text n = Except.error e →
      summarize_text env text n
        = Except.error (PyExc.exception ("Error summarizing text: " ++ e)))
    ∧ (∀ m : String, PyExc.className (PyExc.exception m) = "Exception") := by
  refine ⟨?_, ?_, ?_, fun _ => rfl⟩
  · intro h; simp [convert_to_mp4, h]
  · intro h; simp [transcribe_video, h]
  · intro h; simp [summarize_text, h]

/-- C7 (witness): the amended theorem at an environment where all three
external calls fail, with messages "c", "t" and "s". -/
theorem C7_witness :
    (convert_to_mp4 envAllFail [] "v.avi").2
      = Except.error (PyExc.exception "Error converting video: c")
    ∧ transcribe_video envAllFail "v.mp4"
      = Except.error (PyExc.exception "Error transcribing video: t")
    ∧ summarize_text envAllFail (some "x") 150
      = Except.error (PyExc.exception "Error summarizing text: s") :=
  ⟨(C7_generic_exception_named_per_step envAllFail [] "v.avi" none 0 "c").1 rfl,
   (C7_generic_exception_named_per_step envAllFail [] "v.mp4" none 0 "t").2.1 rfl,
   (C7_generic_exception_named_per_step envAllFail [] "v.mp4" (some "x") 150 "s").2.2.1 rfl⟩

/-- C8 (counterexample): the claim that `transcribe_video` fails on an
empty result and never returns an empty/absent transcript as a success
value is false: when the service succeeds but the transcript object's
`text` is `None`, the code returns `transcript.text` — `None` — as a
success value (line 38 performs no check). -/
theorem C8_counterexample :
    transcribe_video envEmptyText "talk.mp4" = Except.ok none :=
  rfl

/-- C8 (amended): `transcribe_video` raises
`Exception("Error transcribing video: ...")` exactly when the external
service raises; whatever `transcript.text` the service returns —
including an empty or absent one — is passed through unchanged as a
success value. -/
theorem C8_error_only_on_service_exception (env : Env) (p : String) :
    (∀ e, env.transcribe p = Except.error e →
       transcribe_video env p
         = Except.error (PyExc.exception ("Error transcribing video: " ++ e)))
    ∧ (∀ t, env.transcribe p = Except.ok t → transcribe_video env p = Except.ok t) := by
  constructor
  · intro e h; simp [transcribe_video, h]
  · intro t h; simp [transcribe_video, h]

/-- C8 (witness): the amended theorem at a failing service ("network
down") and at a service returning an absent transcript. -/
theorem C8_witness :
    transcribe_video envTransFail "a.mp4"
      = Except.error (PyExc.exception "Error transcribing video: network down")
    ∧ transcribe_video envEmptyText "a.mp4" = Except.ok none :=
  ⟨(C8_error_only_on_service_exception envTransFail "a.mp4").1 "network down" rfl,
   (C8_error_only_on_service_exception envEmptyText "a.mp4").2 none rfl⟩

/-- C9 (confirmed): the caller-supplied input file is never deleted: if
the input path exists before the call and the temporary name chosen by
`NamedTemporaryFile` is fresh, the input path still exists after
`process_video` returns, on every exit path. -/
theorem C9_input_file_preserved (env : Env) (fs : FS) (p : String)
    (hin : p ∈ fs) (hfresh : env.tempName ∉ fs) :
    p ∈ (process_video env fs p).1 := by
  rw [process_video_eq]
  by_cases hx : extOf p = ".mp4"
  · rw [processBody_mp4 env fs p hx,
      (pipelineRest_fs_tf env fs [] _ p).1, (pipelineRest_fs_tf env fs [] _ p).2]
    exact hin
  · cases hc : env.convert p with
    | ok u =>
      cases u
      rw [processBody_conv_ok env fs p hx hc,
        (pipelineRest_fs_tf env _ _ _ _).1, (pipelineRest_fs_tf env _ _ _ _).2,
        cleanup_fresh fs env.tempName hfresh]
      exact hin
    | error e =>
      rw [processBody_conv_err env fs p e hx hc]
      exact List.mem_cons_of_mem _ hin

/-- C9 (witness): the input `movie.mkv` survives a full successful run
that converts, transcribes and summarizes. -/
theorem C9_witness : "movie.mkv" ∈ (process_video envOk ["movie.mkv"] "movie.mkv").1 :=
  C9_input_file_preserved envOk ["movie.mkv"] "movie.mkv" (by decide) (by decide)

/-- C10 (confirmed): the cleanup loop never raises — its existence guard
makes every `os.unlink` it performs succeed, while a bare `unlink` on a
missing path would raise `FileNotFoundError` — and it removes exactly
the tracked files that exist: a path exists after cleanup iff it existed
before and is not in the tracked list. -/
theorem C10_cleanup_guarded_and_exact (fs : FS) (ts : List String) :
    (cleanup fs ts).2 = none
    ∧ (∀ p, p ∈ (cleanup fs ts).1 ↔ (p ∈ fs ∧ p ∉ ts))
    ∧ (∀ p, p ∉ fs → unlink fs p = Except.error (PyExc.fileNotFoundError p)) := by
  refine ⟨cleanup_snd fs ts, fun p => cleanup_mem fs ts p, fun p hp => ?_⟩
  simp [unlink, pathExists, hp]

/-- C10 (witness): the lemma at a concrete filesystem and tracked list,
plus a concrete missing path on which an unguarded unlink would
raise. -/
theorem C10_witness :
    (cleanup ["a", "b"] ["b"]).2 = none
    ∧ ("a" ∈ (cleanup ["a", "b"] ["b"]).1 ↔ ("a" ∈ (["a", "b"] : FS) ∧ "a" ∉ (["b"] : List String)))
    ∧ unlink ["a"] "c" = Except.error (PyExc.fileNotFoundError "c") :=
  ⟨(C10_cleanup_guarded_and_exact ["a", "b"] ["b"]).1,
   (C10_cleanup_guarded_and_exact ["a", "b"] ["b"]).2.1 "a",
   (C10_cleanup_guarded_and_exact ["a"] []).2.2 "c" (by decide)⟩

end VideoSummary
